import Mathlib

/-!
Verification of the multi-transport JSON-RPC dispatcher of the
`a-sample-sse-server-for-nextchat` repository.

The Python sources (`sse-server.py`, `mcp-server.py`) are shallowly embedded
below: the module-global `SAMPLE_TASKS` dict becomes an association list
threaded explicitly through the tool handler, the tool handler
`handle_call_tool` becomes a total function returning `Except` (a Python
`raise ValueError` is the `Except.error` case), and each HTTP / WebSocket
endpoint becomes a function from a decoded request body to the value it
returns or sends.  `json.loads` is modelled by an inductive `Body` type that
distinguishes the outcomes the endpoints distinguish: empty body, body that
is not parseable as JSON, parseable JSON that is not an object (on which
`message.get` raises), and a parsed envelope object.  `json.dumps` of the
tool's structured response is kept structured (constructor `ContentText.taskList`),
since serialization itself is never at issue.  `datetime.now().isoformat()`
is an explicit `now : String` parameter, and the SSE generator's clock is an
explicit `clock : Nat -> String` parameter.
-/

namespace SseServer

/-- One task dict of `SAMPLE_TASKS` (sse-server.py lines 37-60).  The base
entries carry no `"category"` key; the handler adds one on a copy, so the
field is an `Option` that is `none` on every catalog entry. -/
structure Task where
  id : Nat
  title : String
  status : String
  priority : String
  due_date : String
  category : Option String := none
deriving DecidableEq, Repr

/-- `SAMPLE_TASKS` (sse-server.py lines 37-60), an insertion-ordered dict
from category name to task list. -/
def SAMPLE_TASKS : List (String × List Task) :=
  [ ("work",
      [ { id := 1, title := "Complete project proposal", status := "pending", priority := "high", due_date := "2024-01-15" },
        { id := 2, title := "Review code changes", status := "in_progress", priority := "medium", due_date := "2024-01-12" },
        { id := 3, title := "Team meeting preparation", status := "completed", priority := "low", due_date := "2024-01-10" },
        { id := 4, title := "Update documentation", status := "pending", priority := "medium", due_date := "2024-01-20" } ]),
    ("personal",
      [ { id := 5, title := "Grocery shopping", status := "pending", priority := "medium", due_date := "2024-01-13" },
        { id := 6, title := "Doctor appointment", status := "completed", priority := "high", due_date := "2024-01-08" },
        { id := 7, title := "Call family", status := "pending", priority := "low", due_date := "2024-01-14" },
        { id := 8, title := "Exercise routine", status := "in_progress", priority := "medium", due_date := "2024-01-11" } ]),
    ("learning",
      [ { id := 9, title := "Read Python book chapter 5", status := "in_progress", priority := "medium", due_date := "2024-01-16" },
        { id := 10, title := "Complete online course module", status := "pending", priority := "high", due_date := "2024-01-18" },
        { id := 11, title := "Practice coding exercises", status := "completed", priority := "low", due_date := "2024-01-09" } ]),
    ("home",
      [ { id := 12, title := "Fix leaky faucet", status := "pending", priority := "high", due_date := "2024-01-17" },
        { id := 13, title := "Organize garage", status := "pending", priority := "low", due_date := "2024-01-25" },
        { id := 14, title := "Plant new flowers", status := "completed", priority := "medium", due_date := "2024-01-05" } ]) ]

/-- `task.copy()` followed by `task_with_category["category"] = cat`
(sse-server.py lines 119-120), and equally the `{**task, "category": category}`
comprehension (line 126): a fresh task value with the category field set. -/
def addCategory (cat : String) (t : Task) : Task :=
  { t with category := some cat }

/-- `", ".join(...)` over a list of strings. -/
def joinComma : List String → String
  | [] => ""
  | [s] => s
  | s :: rest => s ++ ", " ++ joinComma rest

/-- The schema of one property inside a tool's `inputSchema`. -/
structure PropSchema where
  type : String
  description : String
  enum : Option (List String) := none
deriving DecidableEq, Repr

/-- A tool's declared `inputSchema`. -/
structure InputSchema where
  type : String
  properties : List (String × PropSchema)
  required : List String
deriving DecidableEq, Repr

/-- One tool catalog entry (the fields of `mcp.types.Tool` this server
populates, which are also the fields its hand-written catalogs carry). -/
structure Tool where
  name : String
  description : String
  inputSchema : InputSchema
deriving DecidableEq, Repr

/-- `handle_list_tools` (sse-server.py lines 65-93): the registered
`list_tools` handler returning the tool catalog. -/
def handle_list_tools : List Tool :=
  [ { name := "get_tasklist",
      description := "Get a list of tasks filtered by category",
      inputSchema :=
        { type := "object",
          properties :=
            [ ("category",
                { type := "string",
                  description := "The category to filter tasks by",
                  enum := some ["work", "personal", "learning", "home", "all"] }) ],
          required := ["category"] } },
    { name := "test_slack",
      description := "Test Slack integration",
      inputSchema :=
        { type := "object",
          properties := [],
          required := [] } } ]

/-- The structured value the handler serializes with `json.dumps`
(sse-server.py lines 135-140). -/
structure TaskListResponse where
  category : String
  total_tasks : Nat
  tasks : List Task
  timestamp : String
deriving DecidableEq, Repr

/-- The text payload of a `TextContent` block: either a plain string or the
JSON serialization of a `TaskListResponse` (serialization kept structured). -/
inductive ContentText where
  | plain (s : String)
  | taskList (r : TaskListResponse)
deriving DecidableEq, Repr

/-- One `TextContent(type="text", text=...)` block. -/
structure TextContent where
  type : String
  text : ContentText
deriving DecidableEq, Repr

/-- A Python `ValueError` raised by the tool handler, carrying `str(e)`. -/
structure ToolErr where
  message : String
deriving DecidableEq, Repr

/-- `params.get("arguments", {})` as seen by `get_tasklist`: the only key the
handler reads is `"category"`; `none` models `"category" not in arguments`. -/
structure Arguments where
  category : Option String := none
deriving DecidableEq, Repr

/-- The body of `handle_call_tool`'s `get_tasklist` branch after
`category = arguments["category"].lower()` (sse-server.py lines 113-151),
with the module-global `SAMPLE_TASKS` dict passed explicitly as `db` and
`datetime.now().isoformat()` as `now`.  The inner `try` only ever sees the
`ValueError` of the invalid-category branch, which the `except` re-raises
wrapped in `"Error retrieving tasks: "`. -/
def get_tasklist_core (db : List (String × List Task)) (category : String)
    (now : String) : Except ToolErr (List TextContent) :=
  if category = "all" then
    let all_tasks := db.foldl
      (fun acc p => acc ++ p.2.map (fun task => addCategory p.1 task)) []
    Except.ok [{ type := "text",
                 text := ContentText.taskList
                   { category := category,
                     total_tasks := all_tasks.length,
                     tasks := all_tasks,
                     timestamp := now } }]
  else
    match db.lookup category with
    | some tasks =>
        let result_tasks := tasks.map (fun task => addCategory category task)
        Except.ok [{ type := "text",
                     text := ContentText.taskList
                       { category := category,
                         total_tasks := result_tasks.length,
                         tasks := result_tasks,
                         timestamp := now } }]
    | none =>
        let available_categories := db.map Prod.fst ++ ["all"]
        Except.error
          { message := "Error retrieving tasks: Invalid category '" ++ category
              ++ "'. Available categories: " ++ joinComma available_categories }

/-- How an `Option` tool name renders inside a Python f-string:
`None` for an absent name. -/
def showOptName : Option String → String
  | none => "None"
  | some s => s

/-- `handle_call_tool` (sse-server.py lines 95-153), with the module-global
task dict explicit: returns the (unchanged) dict together with the handler's
outcome.  A `raise ValueError` is the `Except.error` case. -/
def handle_call_tool_db (name : Option String) (arguments : Arguments)
    (db : List (String × List Task)) (now : String) :
    List (String × List Task) × Except ToolErr (List TextContent) :=
  (db,
    if name = some "test_slack" then
      Except.ok [{ type := "text", text := ContentText.plain "bingo!" }]
    else if name = some "get_tasklist" then
      match arguments.category with
      | none => Except.error { message := "Missing required argument: category" }
      | some c => get_tasklist_core db c.toLower now
    else
      Except.error { message := "Unknown tool: " ++ showOptName name })

/-- `handle_call_tool` as the endpoints call it, reading the module-global
`SAMPLE_TASKS`. -/
def handle_call_tool (name : Option String) (arguments : Arguments)
    (now : String) : Except ToolErr (List TextContent) :=
  (handle_call_tool_db name arguments SAMPLE_TASKS now).2

/-- A JSON-RPC correlation id: the server echoes whatever number or string
the client sent.  An absent `"id"` key (`message.get("id")` returning `None`)
is modelled by `Option IdTok`'s `none` at the use sites. -/
inductive IdTok where
  | num (n : Int)
  | str (s : String)
deriving DecidableEq, Repr

/-- `message.get("params", {})` restricted to the keys the endpoints read:
`params.get("name")` and `params.get("arguments", {})`. -/
structure Params where
  name : Option String := none
  arguments : Arguments := {}
deriving DecidableEq, Repr

/-- A decoded inbound JSON-RPC envelope object.  `method` and `id` are read
with `message.get`, so each may be absent (`none`). -/
structure Envelope where
  method : Option String := none
  id : Option IdTok := none
  params : Params := {}
deriving DecidableEq, Repr

/-- The `"capabilities": {"tools": {...}}` object of an `initialize` result.
The HTTP endpoints send `{"listChanged": true}`; the WebSocket endpoint
sends an empty `"tools"` object (`listChanged` absent). -/
structure ToolsCap where
  listChanged : Option Bool := none
deriving DecidableEq, Repr

/-- Declared server capabilities. -/
structure Capabilities where
  tools : ToolsCap
deriving DecidableEq, Repr

/-- The `"serverInfo"` object. -/
structure ServerInfo where
  name : String
  version : String
deriving DecidableEq, Repr

/-- The `"result"` payload of a response envelope, one constructor per shape
the server produces. -/
inductive RpcResult where
  | initResult (protocolVersion : String) (capabilities : Capabilities)
      (serverInfo : ServerInfo)
  | toolsResult (tools : List Tool)
  | callResult (content : List TextContent)
deriving DecidableEq, Repr

/-- The `"error"` object of a response envelope. -/
structure RpcError where
  code : Int
  message : String
deriving DecidableEq, Repr

/-- A response envelope carries exactly one of `"result"` or `"error"`. -/
inductive RespBody where
  | result (r : RpcResult)
  | error (e : RpcError)
deriving DecidableEq, Repr

/-- One JSON-RPC response envelope: `{"jsonrpc": "2.0", "id": ..., ...}`.
`id = none` renders as `"id": null`. -/
structure RespEnvelope where
  id : Option IdTok
  body : RespBody
deriving DecidableEq, Repr

/-- The outcome of one unary HTTP request: a JSON response envelope, a bare
HTTP status with no envelope body (`Response(status_code=...)`), or an
exception that escapes the endpoint unhandled. -/
inductive HttpOut where
  | envelope (e : RespEnvelope)
  | status (code : Nat)
  | fault
deriving DecidableEq, Repr

/-- What the endpoints see after `await request.body()` and `json.loads`:
an empty body, a non-empty body `json.loads` rejects, a body that parses to
a non-object (on which `message.get` raises `AttributeError`), or a parsed
envelope object. -/
inductive Body where
  | empty
  | invalidJson
  | nonObject
  | msg (e : Envelope)
deriving DecidableEq, Repr

/-- The capabilities the HTTP endpoints declare. -/
def httpCapabilities : Capabilities := { tools := { listChanged := some true } }

/-- The capabilities the WebSocket endpoint declares
(`"tools": {}`, sse-server.py line 595). -/
def wsCapabilities : Capabilities := { tools := {} }

/-- The `"serverInfo"` all transports send. -/
def theServerInfo : ServerInfo := { name := "mcp-sse-server", version := "0.1.0" }

/-- The literal `tools_data` list hand-written inside the `tools/list` branch
of `mcp_endpoint` (sse-server.py lines 463-488). -/
def tools_data_mcp : List Tool :=
  [ { name := "get_tasklist",
      description := "Get a list of tasks filtered by category",
      inputSchema :=
        { type := "object",
          properties :=
            [ ("category",
                { type := "string",
                  description := "The category to filter tasks by",
                  enum := some ["work", "personal", "learning", "home", "all"] }) ],
          required := ["category"] } },
    { name := "test_slack",
      description := "Test Slack integration",
      inputSchema :=
        { type := "object",
          properties := [],
          required := [] } } ]

/-- The literal `tools_data` list hand-written inside the `tools/list` branch
of `mcp_sse_endpoint` (sse-server.py lines 260-285). -/
def tools_data_sse : List Tool :=
  [ { name := "get_tasklist",
      description := "Get a list of tasks filtered by category",
      inputSchema :=
        { type := "object",
          properties :=
            [ ("category",
                { type := "string",
                  description := "The category to filter tasks by",
                  enum := some ["work", "personal", "learning", "home", "all"] }) ],
          required := ["category"] } },
    { name := "test_slack",
      description := "Test Slack integration",
      inputSchema :=
        { type := "object",
          properties := [],
          required := [] } } ]

/-- `GET /tools` (`list_tools`, sse-server.py lines 204-208): returns
`model_dump()` of each entry of `handle_list_tools`, i.e. the catalog itself
in our model. -/
def list_tools_endpoint : List Tool := handle_list_tools

/-- How `message.get("method")` renders inside the
`f"Method not found: {method}"` f-string. -/
def showOptMethod : Option String → String
  | none => "None"
  | some s => s

/-- An endpoint invocation outcome, instrumented with the list of
`handle_call_tool(name, arguments)` invocations the code path performed, so
that dispatch to tool logic is observable. -/
structure SseOut where
  calls : List (Option String × Arguments)
  out : HttpOut
deriving DecidableEq, Repr

/-- `POST /mcp/sse` (`mcp_sse_endpoint`, sse-server.py lines 222-350).
An empty body short-circuits to a bare 400 before any JSON handling; only
`json.JSONDecodeError` is caught, so a body parsing to a non-object makes
`message.get` raise out of the endpoint (`HttpOut.fault`).
`notifications/initialized` returns a bare 202 with no envelope. -/
def mcp_sse_endpoint (body : Body) (now : String) : SseOut :=
  match body with
  | Body.empty => { calls := [], out := HttpOut.status 400 }
  | Body.invalidJson =>
      { calls := [],
        out := HttpOut.envelope
          { id := none, body := RespBody.error { code := -32700, message := "Parse error" } } }
  | Body.nonObject => { calls := [], out := HttpOut.fault }
  | Body.msg message =>
      let request_id := message.id
      if message.method = some "initialize" then
        { calls := [],
          out := HttpOut.envelope
            { id := request_id,
              body := RespBody.result
                (RpcResult.initResult "2024-11-05" httpCapabilities theServerInfo) } }
      else if message.method = some "tools/list" then
        { calls := [],
          out := HttpOut.envelope
            { id := request_id,
              body := RespBody.result (RpcResult.toolsResult tools_data_sse) } }
      else if message.method = some "tools/call" then
        let tool_name := message.params.name
        let arguments := message.params.arguments
        match handle_call_tool tool_name arguments now with
        | Except.ok result =>
            { calls := [(tool_name, arguments)],
              out := HttpOut.envelope
                { id := request_id, body := RespBody.result (RpcResult.callResult result) } }
        | Except.error e =>
            { calls := [(tool_name, arguments)],
              out := HttpOut.envelope
                { id := request_id,
                  body := RespBody.error { code := -32603, message := e.message } } }
      else if message.method = some "notifications/initialized" then
        { calls := [], out := HttpOut.status 202 }
      else
        { calls := [],
          out := HttpOut.envelope
            { id := request_id,
              body := RespBody.error
                { code := -32601,
                  message := "Method not found: " ++ showOptMethod message.method } } }

/-- Outcome of one `POST /mcp` request, with the `handle_call_tool`
invocations instrumented as in `SseOut`.  This endpoint's `try` catches every
exception, so it always returns an envelope. -/
structure McpOut where
  calls : List (Option String × Arguments)
  resp : RespEnvelope
deriving DecidableEq, Repr

/-- `POST /mcp` (`mcp_endpoint`, sse-server.py lines 430-542).  The outer
`except Exception` turns an empty body, an unparseable body, and a
non-object body alike into the ParseError envelope.  There is no
`notifications/initialized` branch: it falls through to MethodNotFound. -/
def mcp_endpoint (body : Body) (now : String) : McpOut :=
  match body with
  | Body.empty =>
      { calls := [],
        resp := { id := none, body := RespBody.error { code := -32700, message := "Parse error" } } }
  | Body.invalidJson =>
      { calls := [],
        resp := { id := none, body := RespBody.error { code := -32700, message := "Parse error" } } }
  | Body.nonObject =>
      { calls := [],
        resp := { id := none, body := RespBody.error { code := -32700, message := "Parse error" } } }
  | Body.msg message =>
      let request_id := message.id
      if message.method = some "initialize" then
        { calls := [],
          resp := { id := request_id,
                    body := RespBody.result
                      (RpcResult.initResult "2024-11-05" httpCapabilities theServerInfo) } }
      else if message.method = some "tools/list" then
        { calls := [],
          resp := { id := request_id,
                    body := RespBody.result (RpcResult.toolsResult tools_data_mcp) } }
      else if message.method = some "tools/call" then
        let tool_name := message.params.name
        let arguments := message.params.arguments
        match handle_call_tool tool_name arguments now with
        | Except.ok result =>
            { calls := [(tool_name, arguments)],
              resp := { id := request_id,
                        body := RespBody.result (RpcResult.callResult result) } }
        | Except.error e =>
            { calls := [(tool_name, arguments)],
              resp := { id := request_id,
                        body := RespBody.error { code := -32603, message := e.message } } }
      else
        { calls := [],
          resp := { id := request_id,
                    body := RespBody.error
                      { code := -32601,
                        message := "Method not found: " ++ showOptMethod message.method } } }

/-- What one iteration of the WebSocket receive loop can do with one inbound
text frame: send some envelopes and continue, or let an exception escape the
inner `try` (ending the connection loop). -/
structure WsStep where
  calls : List (Option String × Arguments)
  sent : List RespEnvelope
  faulted : Bool
deriving DecidableEq, Repr

/-- A decoded WebSocket text frame (`receive_text` never yields an empty
HTTP-style body, so there is no `empty` case). -/
inductive WsBody where
  | invalidJson
  | nonObject
  | msg (e : Envelope)
deriving DecidableEq, Repr

/-- One iteration of `mcp_websocket_endpoint`'s receive loop
(sse-server.py lines 570-667).  The inner `try` catches only
`json.JSONDecodeError`; `tools/list` here serializes `handle_list_tools`;
there is no `notifications/initialized` branch, so a notification is
answered with a MethodNotFound error envelope. -/
def mcp_websocket_step (data : WsBody) (now : String) : WsStep :=
  match data with
  | WsBody.invalidJson =>
      { calls := [],
        sent := [{ id := none, body := RespBody.error { code := -32700, message := "Parse error" } }],
        faulted := false }
  | WsBody.nonObject => { calls := [], sent := [], faulted := true }
  | WsBody.msg message =>
      let request_id := message.id
      if message.method = some "initialize" then
        { calls := [],
          sent := [{ id := request_id,
                     body := RespBody.result
                       (RpcResult.initResult "2024-11-05" wsCapabilities theServerInfo) }],
          faulted := false }
      else if message.method = some "tools/list" then
        { calls := [],
          sent := [{ id := request_id,
                     body := RespBody.result (RpcResult.toolsResult handle_list_tools) }],
          faulted := false }
      else if message.method = some "tools/call" then
        let tool_name := message.params.name
        let arguments := message.params.arguments
        match handle_call_tool tool_name arguments now with
        | Except.ok result =>
            { calls := [(tool_name, arguments)],
              sent := [{ id := request_id,
                         body := RespBody.result (RpcResult.callResult result) }],
              faulted := false }
        | Except.error e =>
            { calls := [(tool_name, arguments)],
              sent := [{ id := request_id,
                         body := RespBody.error { code := -32603, message := e.message } }],
              faulted := false }
      else
        { calls := [],
          sent := [{ id := request_id,
                     body := RespBody.error
                       { code := -32601,
                         message := "Method not found: " ++ showOptMethod message.method } }],
          faulted := false }

/-- A notification envelope emitted by the SSE push stream. -/
inductive PushNotif where
  | serverCaps (protocolVersion : String) (capabilities : Capabilities)
      (serverInfo : ServerInfo)
  | toolsChanged (tools : List Tool)
  | ping (timestamp : String)
deriving DecidableEq, Repr

/-- One `data: {...}` event of the push stream. -/
structure PushEvent where
  method : String
  params : PushNotif
deriving DecidableEq, Repr

/-- The `event_stream` generator of `GET /mcp/sse`
(sse-server.py lines 356-400), as the infinite sequence of events it yields:
first the capabilities notification, then the `handle_list_tools` catalog,
then one heartbeat per loop iteration, timestamped by the explicit clock. -/
def event_stream (clock : Nat → String) : Nat → PushEvent
  | 0 => { method := "notifications/initialized",
           params := PushNotif.serverCaps "2024-11-05" httpCapabilities theServerInfo }
  | 1 => { method := "notifications/tools_changed",
           params := PushNotif.toolsChanged handle_list_tools }
  | n + 2 => { method := "notifications/ping", params := PushNotif.ping (clock n) }

end SseServer

namespace McpServer

/-- `QueuingSession._received_request` (mcp-server.py lines 9-13): every
inbound request first awaits the session's `_initialized` event and only then
delegates to the superclass dispatch.  In the embedding the await becomes a
guard: with `initialized = false` the request is not dispatched (`none`);
with `initialized = true` it is handed on (`some`). -/
def QueuingSession.received_request (initialized : Bool)
    (req : SseServer.Envelope) : Option SseServer.Envelope :=
  if initialized then some req else none

end McpServer

namespace SseServer

/-- The `INVALID_PARAMS` code imported from `mcp.types`
(sse-server.py line 28); the JSON-RPC InvalidParams code.  The import is
never used by the server. -/
def INVALID_PARAMS : Int := -32602

/-- The `INTERNAL_ERROR` code imported from `mcp.types`
(sse-server.py line 29); the JSON-RPC InternalError code, the literal
`-32603` the endpoints put on every tool-call failure. -/
def INTERNAL_ERROR : Int := -32603

/-- A sequence of `POST /mcp` requests sent by one client over one logical
connection: the endpoint function keeps no per-connection state, so the
connection's outcome is the independent handling of each body. -/
def mcp_connection (msgs : List Body) (now : String) : List McpOut :=
  msgs.map (fun b => mcp_endpoint b now)

/-- Whether a trace of bodies contains an `initialize` request, i.e. whether
the initialize exchange ever completed on this connection. -/
def traceInitialized (msgs : List Body) : Bool :=
  msgs.any (fun b =>
    match b with
    | Body.msg e => e.method = some "initialize"
    | _ => false)

end SseServer

open SseServer McpServer

/-- `(Char.ofNat n).toNat` round-trips on every valid scalar value. -/
theorem charToNatOfNatValid (n : Nat) (h : n.isValidChar) :
    (Char.ofNat n).toNat = n := by
  simp [Char.ofNat, h, Char.ofNatAux, Char.toNat, UInt32.toNat, BitVec.toNat_ofNatLt]

/-- `Char.toLower` is idempotent: lowering an already-lowered character is
the identity. -/
theorem charToLowerIdem (c : Char) : c.toLower.toLower = c.toLower := by
  by_cases h : c.toNat ≥ 65 ∧ c.toNat ≤ 90
  · have hv : Nat.isValidChar (c.toNat + 32) := by
      left
      omega
    have ht : (Char.ofNat (c.toNat + 32)).toNat = c.toNat + 32 :=
      charToNatOfNatValid _ hv
    simp [Char.toLower, h, ht]
    omega
  · simp [Char.toLower, h]

/-- `String.toLower` is idempotent. -/
theorem stringToLowerIdem (s : String) : s.toLower.toLower = s.toLower := by
  simp [String.toLower, String.map_eq, List.map_map, Function.comp_def, charToLowerIdem]

/-- C3: calling the get_tasklist tool with category "all" returns in its
tasks field exactly the union of the per-category lists, each entry tagged
with the name of the category it came from, and total_tasks equal to the sum
of the per-category lengths. -/
theorem C3_tasklist_all (now : String) :
    handle_call_tool (some "get_tasklist") { category := some "all" } now =
      Except.ok [{ type := "text",
                   text := ContentText.taskList
                     { category := "all",
                       total_tasks := (SAMPLE_TASKS.map (fun p => p.2.length)).sum,
                       tasks := (SAMPLE_TASKS.map (fun p => p.2.map (addCategory p.1))).flatten,
                       timestamp := now } }] := by
  have h : "all".toLower = "all" := by
    simp [String.toLower, String.map_eq]
  simp [handle_call_tool, handle_call_tool_db, get_tasklist_core, h, SAMPLE_TASKS, addCategory]

/-- C9: category matching in get_tasklist is case-insensitive: for every
argument string s the handler returns the very same outcome as for
s.lower(); in particular "WORK" returns the work tasks. -/
theorem C9_case_insensitive (s : String) (now : String) :
    handle_call_tool (some "get_tasklist") { category := some s } now =
      handle_call_tool (some "get_tasklist") { category := some s.toLower } now := by
  simp [handle_call_tool, handle_call_tool_db, stringToLowerIdem]

/-- C1 counterexample: on both HTTP JSON-RPC transports, a logical
connection whose trace contains no initialize exchange at all (so its
session state, if the server kept one, would still be uninitialized) has its
very first envelope, a tools/call request, dispatched straight to
handle_call_tool: on /mcp the single-message trace yields one
handle_call_tool invocation, and the same body POSTed to /mcp/sse is
dispatched identically — neither endpoint keeps session state or gates on
initialization. -/
theorem C1_counterexample :
    traceInitialized
        [Body.msg { method := some "tools/call", id := some (IdTok.num 1),
                    params := { name := some "get_tasklist",
                                arguments := { category := some "work" } } }] = false ∧
    ((mcp_connection
        [Body.msg { method := some "tools/call", id := some (IdTok.num 1),
                    params := { name := some "get_tasklist",
                                arguments := { category := some "work" } } }] "t").map
      McpOut.calls).flatten =
      [(some "get_tasklist", { category := some "work" })] ∧
    (mcp_sse_endpoint
        (Body.msg { method := some "tools/call", id := some (IdTok.num 1),
                    params := { name := some "get_tasklist",
                                arguments := { category := some "work" } } }) "t").calls =
      [(some "get_tasklist", { category := some "work" })] := by
  refine ⟨by decide, ?_, ?_⟩
  · simp only [mcp_connection, List.map, mcp_endpoint]
    cases h : handle_call_tool (some "get_tasklist") { category := some "work" } "t" <;>
      simp [h]
  · simp only [mcp_sse_endpoint]
    cases h : handle_call_tool (some "get_tasklist") { category := some "work" } "t" <;>
      simp [h]

/-- C1 (amended): handshake ordering is enforced only on the stdio transport
of mcp-server.py, whose QueuingSession defers every inbound request while
initialized == false; the HTTP JSON-RPC endpoints of sse-server.py (unary
/mcp and POST /mcp/sse) keep no session state and dispatch every tools/call
request to handle_call_tool, initialized or not. -/
theorem C1_amended (id : Option IdTok) (args : Arguments) (now : String)
    (e : Envelope) :
    (mcp_endpoint (Body.msg { method := some "tools/call", id := id,
                              params := { name := some "get_tasklist",
                                          arguments := args } }) now).calls =
      [(some "get_tasklist", args)] ∧
    (mcp_sse_endpoint (Body.msg { method := some "tools/call", id := id,
                                  params := { name := some "get_tasklist",
                                              arguments := args } }) now).calls =
      [(some "get_tasklist", args)] ∧
    QueuingSession.received_request false e = none := by
  refine ⟨?_, ?_, rfl⟩
  · simp only [mcp_endpoint]
    cases h : handle_call_tool (some "get_tasklist") args now <;> simp [h]
  · simp only [mcp_sse_endpoint]
    cases h : handle_call_tool (some "get_tasklist") args now <;> simp [h]

/-- C2 counterexample: on the unary /mcp transport an inbound
notifications/initialized envelope with no id does produce a response
envelope: the endpoint has no notification branch, so the notification falls
through to the MethodNotFound error response. -/
theorem C2_counterexample :
    (mcp_endpoint (Body.msg { method := some "notifications/initialized" }) "t").resp =
      { id := none,
        body := RespBody.error
          { code := -32601, message := "Method not found: notifications/initialized" } } := by
  simp [mcp_endpoint, showOptMethod]

/-- C2 (amended): only the POST /mcp/sse binding produces no response body
for notifications/initialized (a bare 202 status); the unary /mcp endpoint
and the WebSocket channel have no notification branch and answer it with a
MethodNotFound (-32601) error envelope echoing the notification's (absent)
id. -/
theorem C2_amended (id : Option IdTok) (p : Params) (now : String) :
    mcp_sse_endpoint
        (Body.msg { method := some "notifications/initialized", id := id, params := p }) now =
      { calls := [], out := HttpOut.status 202 } ∧
    (mcp_endpoint
        (Body.msg { method := some "notifications/initialized", id := id, params := p }) now).resp =
      { id := id,
        body := RespBody.error
          { code := -32601, message := "Method not found: notifications/initialized" } } ∧
    (mcp_websocket_step
        (WsBody.msg { method := some "notifications/initialized", id := id, params := p }) now).sent =
      [{ id := id,
         body := RespBody.error
           { code := -32601, message := "Method not found: notifications/initialized" } }] := by
  refine ⟨?_, ?_, ?_⟩ <;> simp [mcp_sse_endpoint, mcp_endpoint, mcp_websocket_step, showOptMethod]

/-- C4 counterexample: calling get_tasklist with the unrecognized category
"invalid" through the /mcp endpoint yields an error envelope whose code is
the InternalError code -32603, not an InvalidParams-class code: the error is
not distinguishable from InternalError.  (The message does enumerate the
accepted categories.) -/
theorem C4_counterexample :
    (mcp_endpoint (Body.msg { method := some "tools/call", id := some (IdTok.num 7),
                              params := { name := some "get_tasklist",
                                          arguments := { category := some "invalid" } } }) "t").resp =
      { id := some (IdTok.num 7),
        body := RespBody.error
          { code := INTERNAL_ERROR,
            message := "Error retrieving tasks: Invalid category 'invalid'. Available categories: work, personal, learning, home, all" } } ∧
    INTERNAL_ERROR ≠ INVALID_PARAMS := by
  have h : "invalid".toLower = "invalid" := by
    simp [String.toLower, String.map_eq]
  constructor
  · simp [mcp_endpoint, handle_call_tool, handle_call_tool_db, get_tasklist_core, h,
      SAMPLE_TASKS, joinComma, INTERNAL_ERROR, List.lookup]
  · decide

/-- C4 (amended): for every category string that (after lowercasing) is
neither "all" nor a key of SAMPLE_TASKS, a tools/call of get_tasklist fails
with an error envelope carrying the InternalError code -32603 — the server
never uses an InvalidParams code — whose message lists all accepted category
values, literally including "all". -/
theorem C4_amended (c : String) (id : Option IdTok) (now : String)
    (h1 : c.toLower ≠ "all") (h2 : SAMPLE_TASKS.lookup c.toLower = none) :
    (mcp_endpoint (Body.msg { method := some "tools/call", id := id,
                              params := { name := some "get_tasklist",
                                          arguments := { category := some c } } }) now).resp =
      { id := id,
        body := RespBody.error
          { code := INTERNAL_ERROR,
            message := "Error retrieving tasks: Invalid category '" ++ c.toLower
              ++ "'. Available categories: " ++ "work, personal, learning, home, all" } } := by
  have hj : joinComma (SAMPLE_TASKS.map Prod.fst ++ ["all"]) =
      "work, personal, learning, home, all" := by
    simp [SAMPLE_TASKS, joinComma]
  simp [mcp_endpoint, handle_call_tool, handle_call_tool_db, get_tasklist_core, h1, h2,
    hj, INTERNAL_ERROR]

/-- C4 witness: the amended statement applied at the concrete category
"invalid". -/
theorem C4_amended_witness :
    ("invalid".toLower ≠ "all") ∧
    (SAMPLE_TASKS.lookup "invalid".toLower = none) ∧
    (mcp_endpoint (Body.msg { method := some "tools/call", id := some (IdTok.num 7),
                              params := { name := some "get_tasklist",
                                          arguments := { category := some "invalid" } } }) "t").resp =
      { id := some (IdTok.num 7),
        body := RespBody.error
          { code := INTERNAL_ERROR,
            message := "Error retrieving tasks: Invalid category '" ++ "invalid".toLower
              ++ "'. Available categories: " ++ "work, personal, learning, home, all" } } := by
  have h : "invalid".toLower = "invalid" := by
    simp [String.toLower, String.map_eq]
  refine ⟨by simp [h], by simp [h, SAMPLE_TASKS], ?_⟩
  exact C4_amended "invalid" (some (IdTok.num 7)) "t" (by simp [h]) (by simp [h, SAMPLE_TASKS])

/-- C5: the tool catalog of the unary read-only GET /tools endpoint (built
from handle_list_tools) and the catalogs returned by tools/list on the
JSON-RPC endpoints (/mcp, /mcp/sse, WebSocket) are identical in content
(name, description, inputSchema) and in order. -/
theorem C5_catalog_identical :
    list_tools_endpoint = tools_data_mcp ∧
    list_tools_endpoint = tools_data_sse ∧
    (∀ id now, (mcp_endpoint (Body.msg { method := some "tools/list", id := id }) now).resp =
      { id := id, body := RespBody.result (RpcResult.toolsResult list_tools_endpoint) }) ∧
    (∀ id now, (mcp_sse_endpoint (Body.msg { method := some "tools/list", id := id }) now).out =
      HttpOut.envelope
        { id := id, body := RespBody.result (RpcResult.toolsResult list_tools_endpoint) }) ∧
    (∀ id now, (mcp_websocket_step (WsBody.msg { method := some "tools/list", id := id }) now).sent =
      [{ id := id, body := RespBody.result (RpcResult.toolsResult list_tools_endpoint) }]) := by
  refine ⟨rfl, rfl, ?_, ?_, ?_⟩ <;> intro id now <;>
    simp [mcp_endpoint, mcp_sse_endpoint, mcp_websocket_step, list_tools_endpoint,
      handle_list_tools, tools_data_mcp, tools_data_sse]

/-- C6 counterexample: an empty request body is not parseable as JSON, yet
the unary /mcp/sse endpoint answers it with a bare HTTP 400 status and no
envelope body, not with a ParseError envelope. -/
theorem C6_counterexample :
    (mcp_sse_endpoint Body.empty "t").out = HttpOut.status 400 := by
  rfl

/-- C6 (amended): for every non-empty request body that is not parseable as
JSON, both unary endpoints return a ParseError envelope with id null and
code -32700; an empty body also yields that envelope on /mcp, but on
/mcp/sse it is rejected with a bare HTTP 400 before any JSON handling. -/
theorem C6_amended (now : String) :
    (mcp_sse_endpoint Body.invalidJson now).out =
      HttpOut.envelope
        { id := none, body := RespBody.error { code := -32700, message := "Parse error" } } ∧
    (mcp_endpoint Body.invalidJson now).resp =
      { id := none, body := RespBody.error { code := -32700, message := "Parse error" } } ∧
    (mcp_endpoint Body.empty now).resp =
      { id := none, body := RespBody.error { code := -32700, message := "Parse error" } } ∧
    (mcp_sse_endpoint Body.empty now).out = HttpOut.status 400 := by
  exact ⟨rfl, rfl, rfl, rfl⟩

/-- C7: for every tool name other than "get_tasklist" and "test_slack", a
tools/call request with that name returns an error response envelope whose
id equals the request's id, on the /mcp, /mcp/sse and WebSocket transports
alike, and never escapes the dispatch path as an unhandled fault (the
/mcp/sse outcome is an envelope, not `HttpOut.fault`; the WebSocket step
does not fault). -/
theorem C7_unknown_tool (name : String) (id : Option IdTok) (args : Arguments)
    (now : String) (h1 : name ≠ "get_tasklist") (h2 : name ≠ "test_slack") :
    (mcp_endpoint (Body.msg { method := some "tools/call", id := id,
                              params := { name := some name, arguments := args } }) now).resp =
      { id := id,
        body := RespBody.error { code := -32603, message := "Unknown tool: " ++ name } } ∧
    (mcp_sse_endpoint (Body.msg { method := some "tools/call", id := id,
                                  params := { name := some name, arguments := args } }) now).out =
      HttpOut.envelope
        { id := id,
          body := RespBody.error { code := -32603, message := "Unknown tool: " ++ name } } ∧
    mcp_websocket_step (WsBody.msg { method := some "tools/call", id := id,
                                     params := { name := some name, arguments := args } }) now =
      { calls := [(some name, args)],
        sent := [{ id := id,
                   body := RespBody.error { code := -32603, message := "Unknown tool: " ++ name } }],
        faulted := false } := by
  have hc : handle_call_tool (some name) args now =
      Except.error { message := "Unknown tool: " ++ name } := by
    simp [handle_call_tool, handle_call_tool_db, showOptName, h1, h2]
  refine ⟨?_, ?_, ?_⟩ <;>
    simp [mcp_endpoint, mcp_sse_endpoint, mcp_websocket_step, hc]

/-- C7 witness: the theorem applied to the concrete unknown tool name
"nonexistent". -/
theorem C7_unknown_tool_witness :
    ("nonexistent" ≠ "get_tasklist") ∧ ("nonexistent" ≠ "test_slack") ∧
    ((mcp_endpoint (Body.msg { method := some "tools/call", id := some (IdTok.num 5),
                               params := { name := some "nonexistent", arguments := {} } }) "t").resp =
      { id := some (IdTok.num 5),
        body := RespBody.error { code := -32603, message := "Unknown tool: " ++ "nonexistent" } } ∧
    (mcp_sse_endpoint (Body.msg { method := some "tools/call", id := some (IdTok.num 5),
                                  params := { name := some "nonexistent", arguments := {} } }) "t").out =
      HttpOut.envelope
        { id := some (IdTok.num 5),
          body := RespBody.error { code := -32603, message := "Unknown tool: " ++ "nonexistent" } } ∧
    mcp_websocket_step (WsBody.msg { method := some "tools/call", id := some (IdTok.num 5),
                                     params := { name := some "nonexistent", arguments := {} } }) "t" =
      { calls := [(some "nonexistent", {})],
        sent := [{ id := some (IdTok.num 5),
                   body := RespBody.error { code := -32603, message := "Unknown tool: " ++ "nonexistent" } }],
        faulted := false }) :=
  ⟨by decide, by decide,
    C7_unknown_tool "nonexistent" (some (IdTok.num 5)) {} "t" (by decide) (by decide)⟩

/-- C8: the SSE push stream emits, in order: first the capability/handshake
notification carrying protocol version, capabilities and server identity;
second a tools-changed notification carrying exactly the current
handle_list_tools catalog; and from then on only periodic ping notifications,
each carrying a timestamp of the stream's clock. -/
theorem C8_push_stream (clock : Nat → String) :
    event_stream clock 0 =
      { method := "notifications/initialized",
        params := PushNotif.serverCaps "2024-11-05" httpCapabilities theServerInfo } ∧
    event_stream clock 1 =
      { method := "notifications/tools_changed",
        params := PushNotif.toolsChanged handle_list_tools } ∧
    ∀ n, 2 ≤ n → event_stream clock n =
      { method := "notifications/ping", params := PushNotif.ping (clock (n - 2)) } := by
  refine ⟨rfl, rfl, ?_⟩
  intro n hn
  obtain ⟨m, rfl⟩ : ∃ m, n = m + 2 := ⟨n - 2, by omega⟩
  simp [event_stream]

/-- C8 witness: the stream characterization applied at the concrete clock
returning "ts" and the third event of the stream. -/
theorem C8_push_stream_witness :
    (2 ≤ 2) ∧
    event_stream (fun _ => "ts") 2 =
      { method := "notifications/ping", params := PushNotif.ping ((fun _ => "ts") (2 - 2)) } :=
  ⟨by decide, (C8_push_stream (fun _ => "ts")).2.2 2 (by decide)⟩

/-- C10: invoking the tool handler never changes the task catalog: with the
module-global dict made explicit, the handler returns the dict unchanged for
every tool name, argument set and category, and each returned task entry is
a fresh copy of its source entry that agrees with it on id, title, status,
priority and due date and only adds the category field.  The tool catalog
(handle_list_tools) is constant data the handler never touches. -/
theorem C10_no_mutation (db : List (String × List Task)) (name : Option String)
    (args : Arguments) (now : String) :
    (handle_call_tool_db name args db now).1 = db ∧
    (handle_call_tool_db name args SAMPLE_TASKS now).1 = SAMPLE_TASKS ∧
    (∀ cat t, (addCategory cat t).id = t.id ∧
      (addCategory cat t).title = t.title ∧
      (addCategory cat t).status = t.status ∧
      (addCategory cat t).priority = t.priority ∧
      (addCategory cat t).due_date = t.due_date ∧
      (addCategory cat t).category = some cat) := by
  refine ⟨rfl, rfl, ?_⟩
  intro cat t
  simp [addCategory]
